import Mathlib

set_option maxRecDepth 8000

/-
Verification of the KCIDB SQLite schema engine (kcidb/db/sqlite/v04_00.py and
kcidb/db/sqlite/v04_01.py) against its natural-language specification.

The Python code is shallowly embedded: the chunked dump/query emission loop,
the ID-selector construction of `query_iter` (including the `add_parents` /
`add_children` graph walks), the schema-version marker encoding, the
load-priority flag, the version-4.0 and version-4.1 table maps, and the
`_inherit` upgrade step are translated into executable Lean definitions.
SQL fragments built by `query_iter` are represented by an inductive selector
syntax (`Sel`) whose evaluation function gives the fragments' relational
meaning over an explicit database state.
-/

namespace KCIDB

/-! ## Object documents and the chunked emission loop

`dump_iter` (kcidb/db/sqlite/v04_00.py lines 511-548) and `query_iter`
(lines 674-720) accumulate unpacked objects into a report document `data`
(a mapping of object-list name to list of objects), incrementing `obj_num`
per object, yielding and resetting whenever `objects_per_report` is nonzero
and `obj_num` reaches it, and finally yielding a trailing partial document
when `obj_num` is nonzero.  The document's `version` stamp is not modelled;
objects are abstracted to an arbitrary type `A`. -/

/-- A report document: object-list names mapped to lists of objects,
in insertion order, as built by `data[table_name] = obj_list`. -/
abbrev Doc (A : Type) := List (String × List A)

/-- Total number of objects in a document. -/
def docSize {A : Type} (d : Doc A) : Nat :=
  (d.map (fun p => p.2.length)).sum

/-- The list of objects a document holds under a given object-list name
(`[]` when the name is absent). -/
def docCat {A : Type} (nm : String) (d : Doc A) : List A :=
  (List.lookup nm d).getD []

/-- `data[table_name] = obj_list; obj_list.append(obj)`: append an object to
the entry of the given name, creating the entry at the end when absent
(dictionary-update semantics of the Python `data` dict). -/
def addToDoc {A : Type} (name : String) (o : A) : Doc A → Doc A
  | [] => [(name, [o])]
  | p :: rest =>
      if p.1 = name then (p.1, p.2 ++ [o]) :: rest
      else p :: addToDoc name o rest

/-- State of the emission loop: documents yielded so far, the running object
count `obj_num`, and the document under construction `data`. -/
structure ChunkSt (A : Type) where
  docs : List (Doc A)
  objNum : Nat
  data : Doc A
deriving DecidableEq

/-- One iteration of the inner loop of `dump_iter`/`query_iter` on a single
unpacked object: add the object to `data`, increment `obj_num`, and when
`objects_per_report` is nonzero and reached, yield `data` and reset. -/
def stepObj {A : Type} (n : Nat) (name : String) (st : ChunkSt A) (o : A) :
    ChunkSt A :=
  let dt := addToDoc name o st.data
  let num := st.objNum + 1
  if n ≠ 0 ∧ n ≤ num then ⟨st.docs ++ [dt], 0, []⟩
  else ⟨st.docs, num, dt⟩

/-- Process the unpacked objects of one table in order. -/
def chunkObjs {A : Type} (n : Nat) (name : String) (st : ChunkSt A) :
    List A → ChunkSt A
  | [] => st
  | o :: os => chunkObjs n name (stepObj n name st o) os

/-- Process the tables in declaration order (the outer loop over
`self.TABLES.items()`). -/
def chunkRun {A : Type} (n : Nat) (st : ChunkSt A) :
    List (String × List A) → ChunkSt A
  | [] => st
  | t :: ts => chunkRun n (chunkObjs n t.1 st t.2) ts

/-- The full emission loop shared by `dump_iter` and `query_iter`: run over
all tables, then yield the trailing partial document if `obj_num` is
nonzero (`if obj_num:` at lines 545 and 717). -/
def chunkEmit {A : Type} (tables : List (String × List A)) (n : Nat) :
    List (Doc A) :=
  let st := chunkRun n ⟨[], 0, []⟩ tables
  if st.objNum ≠ 0 then st.docs ++ [st.data] else st.docs

/-- `Schema.dump_iter` restricted to its emission behaviour: the argument is
the per-table lists of unpacked objects (each table already filtered by the
`after`/`until` windows), the result the list of yielded documents. -/
def dump_iter {A : Type} (tables : List (String × List A))
    (objects_per_report : Nat) : List (Doc A) :=
  chunkEmit tables objects_per_report

/-- Total object count over all tables handed to the emission loop. -/
def totalObjs {A : Type} (tables : List (String × List A)) : Nat :=
  (tables.map (fun t => t.2.length)).sum

/-- Concatenation, over a sequence of emitted documents, of the objects
held under one object-list name. -/
def emitCat {A : Type} (nm : String) (docs : List (Doc A)) : List A :=
  (docs.map (docCat nm)).flatten

/-- Concatenation of the input objects under one object-list name
(the "unchunked result", grouped by object type). -/
def tablesCat {A : Type} (nm : String) (ts : List (String × List A)) :
    List A :=
  (ts.map (fun t => if t.1 = nm then t.2 else [])).flatten

/-! ## Schema-version marker (Connection, v04_00.py lines 86-130)

`set_schema_version` stores `version[0] * 1000 + version[1] % 1000` into
`PRAGMA user_version` (0 for `None`); `get_schema_version` reads the pragma
and returns `(number / 1000, number % 1000)` when the number is nonzero,
`None` otherwise.  The pragma value is modelled as a natural number. -/

/-- `Connection.set_schema_version`: the `PRAGMA user_version` number
written for a requested version (`none` removes the version by writing 0). -/
def set_schema_version (version : Option (Nat × Nat)) : Nat :=
  match version with
  | none => 0
  | some v => v.1 * 1000 + v.2 % 1000

/-- `Connection.get_schema_version`: decode the stored
`PRAGMA user_version` number (`if number: ... return None`). -/
def get_schema_version (number : Nat) : Option (Nat × Nat) :=
  if number ≠ 0 then some (number / 1000, number % 1000) else none

/-- Objects under one name accumulated over the state's yielded documents
and the document under construction. -/
def docsCat {A : Type} (nm : String) (st : ChunkSt A) : List A :=
  emitCat nm st.docs ++ docCat nm st.data

/-- The number of objects the emission loop has consumed so far, as
recoverable from the state (every yielded document holds exactly `n`
objects, plus `obj_num` in the document under construction). -/
def stTotal {A : Type} (n : Nat) (st : ChunkSt A) : Nat :=
  st.docs.length * n + st.objNum

/-- The invariant the emission loop maintains on its state. -/
structure ChunkInv {A : Type} (n : Nat) (st : ChunkSt A) : Prop where
  data_size : docSize st.data = st.objNum
  data_nil : st.objNum = 0 → st.data = []
  docs_full : ∀ d ∈ st.docs, docSize d = n
  num_lt : n ≠ 0 → st.objNum < n
  docs_nil : n = 0 → st.docs = []

/-! ## The I/O object type graph and identity fields

The `io` module referenced by the schema (`self.io.graph`,
`self.io.id_fields`) is not part of the embedded sources. -/

/-- Modelled from the spec: the fixed object type graph of I/O schema v4.0,
`"" → checkouts → builds → tests`, "a fixed, schema-independent DAG over
object-type names where each edge names the foreign-key field(s) linking
child rows to a parent's identity fields" (`self.io.graph`). -/
def ioGraph : String → List String
  | "" => ["checkouts"]
  | "checkouts" => ["builds"]
  | "builds" => ["tests"]
  | _ => []

/-- Modelled from the spec: the object list names known to I/O schema v4.0
(the keys of `self.io.id_fields`), in declaration order. -/
def ioListNames : List String := ["checkouts", "builds", "tests"]

/-- `obj_name = obj_list_name[:-1]`: the singular object name whose
prefix forms foreign-key column names (`checkout_id`, `build_id`). -/
def objNameOf (obj_list_name : String) : String :=
  obj_list_name.dropRight 1

/-! ## Database state for query evaluation

`query_iter` builds, per object list, a list of SELECT fragments joined by
`UNION`.  Each fragment is represented by a `Sel` value; `evalSel` gives the
fragment's meaning — the list of ID values it returns — over an explicit
database state.  ID fields: every v4.0 object type has the single identity
field `id` (modelled from the spec: "ordered sequences of scalar values
whose arity and order matches an object type's declared identity-field
list"), so identity tuples are single strings here. -/

/-- A stored row: its `id` column plus its foreign-key columns, keyed by
column name (`"build_id"`, `"checkout_id"`). -/
structure QRow where
  id : String
  refs : List (String × String)
deriving DecidableEq

/-- A database state: table rows keyed by table (object-list) name. -/
structure DB where
  tables : List (String × List QRow)
deriving DecidableEq

/-- The rows of a table, in stored order (`[]` for an unknown table). -/
def DB.rows (db : DB) (nm : String) : List QRow :=
  (List.lookup nm db.tables).getD []

/-- Syntax of the ID-selecting SELECT fragments that `query_iter` appends to
`query.selects`:
* `values ids` — the `WITH ids(id) AS (VALUES ...) SELECT * FROM ids`
  fragment built from the caller's explicit ID list (lines 601-612);
* `parentJoin obj_name child_list childSels` — the fragment built by
  `add_parents` (lines 622-637): `SELECT child_list.{obj_name}_id AS id FROM
  child_list INNER JOIN (childSels UNION ...) AS ids USING(id)`;
* `childJoin child_list obj_list parentSels` — the fragment built by
  `add_children` (lines 651-666): `SELECT child_list.id AS id FROM
  child_list INNER JOIN (parentSels UNION ...) AS obj_list ON
  child_list.{obj_name}_id = obj_list.id`. -/
inductive Sel : Type where
  | values : List String → Sel
  | parentJoin : String → String → List Sel → Sel
  | childJoin : String → String → List Sel → Sel

/-- Boolean membership of an ID in a list of IDs (the effect of joining
against the deduplicating `UNION` of fragments). -/
def melem (x : String) : List String → Bool
  | [] => false
  | y :: ys => x == y || melem x ys

mutual

/-- The list of ID values a single SELECT fragment returns over a database
state. -/
def evalSel (db : DB) : Sel → List String
  | .values ids => ids
  | .parentJoin obj_name child_list childSels =>
      (((db.rows child_list).filter
          (fun r => melem r.id (evalSels db childSels))).map
        (fun r => List.lookup (obj_name ++ "_id") r.refs)).reduceOption
  | .childJoin child_list obj_list parentSels =>
      ((db.rows child_list).filter
          (fun r =>
            match List.lookup (objNameOf obj_list ++ "_id") r.refs with
            | some p => melem p (evalSels db parentSels)
            | none => false)).map
        (fun r => r.id)

/-- The ID values of the `UNION` of a list of fragments (concatenated;
only membership matters downstream). -/
def evalSels (db : DB) : List Sel → List String
  | [] => []
  | s :: rest => evalSel db s ++ evalSels db rest

end

/-! ## `query_iter` ID-selector construction (v04_00.py lines 587-672) -/

/-- The per-object-list query state: the list of accumulated SELECT
fragments (`Query.selects`; parameters are carried inside the fragments). -/
abbrev Queries := List (String × List Sel)

/-- `obj_list_queries[name].selects`. -/
def getSels (qs : Queries) (nm : String) : List Sel :=
  (List.lookup nm qs).getD []

/-- `obj_list_queries[name].selects.append(s)`. -/
def appendSel (nm : String) (s : Sel) : Queries → Queries
  | [] => []
  | p :: rest =>
      if p.1 = nm then (p.1, p.2 ++ [s]) :: rest
      else p :: appendSel nm s rest

/-- `ids.get(obj_list_name, [])`: the explicit ID list the caller supplied
for an object list name. -/
def lookupIds (ids : List (String × List String)) (nm : String) :
    List String :=
  (List.lookup nm ids).getD []

/-- Initialization of `obj_list_queries` (lines 592-612): one entry per name
in `self.io.id_fields`, seeded with a `VALUES` fragment whenever the caller
supplied a non-empty ID list for that name. -/
def initQueries (ids : List (String × List String)) : Queries :=
  ioListNames.map (fun nm =>
    (nm,
      let l := lookupIds ids nm
      if l.isEmpty then [] else [Sel.values l]))

/-- `add_parents` (lines 614-638): for each child in graph order, first
recurse into the child, then — when the child's accumulated fragment list is
non-empty — append to this list's fragments a join fetching the
`{obj_name}_{field}` columns of child rows matched by the child's fragments.
The recursion of the Python function terminates because the type graph is
acyclic; `fuel` bounds the recursion depth and is always instantiated above
the graph's depth, so the zero-fuel branch is never taken. -/
def add_parents (fuel : Nat) (name : String) (qs : Queries) : Queries :=
  match fuel with
  | 0 => qs
  | fuel + 1 =>
      (ioGraph name).foldl
        (fun qs child =>
          let qs := add_parents fuel child qs
          let childSels := getSels qs child
          if childSels.isEmpty then qs
          else appendSel name (Sel.parentJoin (objNameOf name) child childSels) qs)
        qs

/-- `add_children` (lines 644-668): for each child in graph order, when this
list's accumulated fragment list is non-empty, append to the child's
fragments a join selecting child rows whose `{obj_name}_{field}` columns
match this list's fragments; then recurse into the child. -/
def add_children (fuel : Nat) (name : String) (qs : Queries) : Queries :=
  match fuel with
  | 0 => qs
  | fuel + 1 =>
      (ioGraph name).foldl
        (fun qs child =>
          let sels := getSels qs name
          let qs :=
            if sels.isEmpty then qs
            else appendSel child (Sel.childJoin child name sels) qs
          add_children fuel child qs)
        qs

/-- Recursion-depth bound for the two graph walks; the v4.0 graph has
depth 3, so 4 is never exhausted. -/
def graphFuel : Nat := 4

/-- The complete ID-selector construction of `query_iter`: seed from `ids`,
then run `add_parents` and/or `add_children` from the graph source `""`
(lines 640-642 and 670-672). -/
def buildQueries (ids : List (String × List String))
    (children parents : Bool) : Queries :=
  let qs := initQueries ids
  let qs :=
    if parents then
      (ioGraph "").foldl (fun qs nm => add_parents graphFuel nm qs) qs
    else qs
  if children then
    (ioGraph "").foldl (fun qs nm => add_children graphFuel nm qs) qs
  else qs

/-- The fetch loop of `query_iter` (lines 680-696): for every object list
with a non-empty fragment list (in `id_fields` order; empty lists are
skipped by `continue`), the table's rows inner-joined `USING(id)` to the
deduplicated `UNION` of its fragments — that is, the table rows, in stored
order, whose `id` is returned by some fragment. -/
def queryFetch (db : DB) (ids : List (String × List String))
    (children parents : Bool) : List (String × List QRow) :=
  let qs := buildQueries ids children parents
  ioListNames.filterMap (fun nm =>
    let sels := getSels qs nm
    if sels.isEmpty then none
    else some (nm,
      (db.rows nm).filter (fun r => melem r.id (evalSels db sels))))

/-- `Schema.query_iter` (lines 552-720): match objects through the
ID-selector construction, then emit the fetched objects in
`objects_per_report`-limited documents with the same emission loop as
`dump_iter`. -/
def query_iter (db : DB) (ids : List (String × List String))
    (children parents : Bool) (objects_per_report : Nat) :
    List (Doc QRow) :=
  chunkEmit (queryFetch db ids children parents) objects_per_report

/-! ## `load` and the load-priority flag (v04_00.py lines 857-894)

`Schema.load` iterates the tables of the document, inserting packed rows
with `table_schema.format_insert(table_name, self.conn.load_prio_db, ...)`,
then flips `self.conn.load_prio_db`.  The insert statement itself lives in
`kcidb/db/sqlite/schema.py`, which is outside the embedded sources; its
conflict policy is modelled from the spec. -/

/-- The mutable per-connection state `load` uses: the `load_prio_db` flag
and the stored rows, keyed by primary key (rows abstracted to `A`). -/
structure LoadConn (A : Type) where
  load_prio_db : Bool
  rows : List (String × A)
deriving DecidableEq

/-- Replace the row stored under a key (the key is present). -/
def setRow {A : Type} (key : String) (v : A) :
    List (String × A) → List (String × A)
  | [] => [(key, v)]
  | p :: rest =>
      if p.1 = key then (key, v) :: rest
      else p :: setRow key v rest

/-- Modelled from the spec: the conflict policy of the INSERT statement
`format_insert` renders (kcidb/db/sqlite/schema.py, not embedded) — "on a
primary-key collision, which of the two conflicting rows survives is
controlled by the connection's load-priority flag (prioritize the
in-database row vs. the newly loaded row)".  With `prio_db` set the
in-database row is kept; otherwise the new row replaces it. -/
def insertRow {A : Type} (prio_db : Bool) (rows : List (String × A))
    (key : String) (v : A) : List (String × A) :=
  match List.lookup key rows with
  | some _ => if prio_db then rows else setRow key v rows
  | none => rows ++ [(key, v)]

/-- All row inserts of one `load` call, in document order, all under the
flag value the connection holds at entry. -/
def loadRows {A : Type} (prio_db : Bool) (rows : List (String × A))
    (data : List (String × A)) : List (String × A) :=
  data.foldl (fun rs p => insertRow prio_db rs p.1 p.2) rows

/-- `Schema.load`: insert every row of the document using the current
`load_prio_db` flag, then flip the flag for the next load (line 894:
`self.conn.load_prio_db = not self.conn.load_prio_db`). -/
def load {A : Type} (conn : LoadConn A) (data : List (String × A)) :
    LoadConn A :=
  ⟨!conn.load_prio_db, loadRows conn.load_prio_db conn.rows data⟩

/-- The conflict policy (priority) a `load` call runs under: the flag value
at entry. -/
def loadPrioUsed {A : Type} (conn : LoadConn A) : Bool :=
  conn.load_prio_db

/-! ## `load` transactionality (v04_00.py lines 857-894)

The two `assert` statements at lines 873-874 validate the document before
the `with self.conn:` block opens; all `executemany` calls run inside that
single block.  The rollback-on-exception behaviour of the sqlite3
connection context manager is modelled from the spec: "partial writes must
not occur (the whole load of one document chunk is one transaction)". -/

/-- Reason a `load` call fails without changing the database. -/
inductive LoadReject : Type where
  | invalid_data : LoadReject
  | insert_failed : LoadReject
deriving DecidableEq

/-- Execute the row inserts of one document in order inside the
transaction; `none` as soon as one insert fails. -/
def insertAllTx {S R : Type} (ins : S → R → Option S) (s : S) :
    List R → Option S
  | [] => some s
  | r :: rest =>
      match ins s r with
      | some s2 => insertAllTx ins s2 rest
      | none => none

/-- Modelled from the spec: one `load` call as a single transaction.
`compatible` is `self.io.is_compatible_directly(data)`, `valid` is
`self.io.is_valid_exactly(data)`, `light` is `LIGHT_ASSERTS`; the asserts
at lines 873-874 reject the document before any insert executes, and a
failing insert aborts the whole `with self.conn:` block. -/
def load_tx {S R : Type} (compatible valid light : Bool)
    (ins : S → R → Option S) (s : S) (rows : List R) :
    Except LoadReject S :=
  if !compatible then .error .invalid_data
  else if !(light || valid) then .error .invalid_data
  else
    match insertAllTx ins s rows with
    | some s2 => .ok s2
    | none => .error .insert_failed

/-- Modelled from the spec: the database state observed after the `load`
call — the transaction's result on success, the entry state on rejection or
on rollback of the failed transaction. -/
def load_result {S R : Type} (compatible valid light : Bool)
    (ins : S → R → Option S) (s : S) (rows : List R) : S :=
  match load_tx compatible valid light ins s rows with
  | .ok s2 => s2
  | .error _ => s

/-! ## Table maps of schema v4.0 and v4.1

Transcription of `Schema.TABLES_ARGS` of kcidb/db/sqlite/v04_00.py (lines
164-226) and kcidb/db/sqlite/v04_01.py (lines 25-58).  A column is its SQL
type plus an optional constraint; a table is its ordered column map plus
the optional explicit composite primary key. -/

/-- Column constraint (`kcidb.db.sqlite.schema.Constraint`). -/
inductive SqlConstraint : Type where
  | primaryKey : SqlConstraint
  | notNull : SqlConstraint
deriving DecidableEq

/-- Column kind: the column classes used by the table maps
(`TextColumn`, `IntegerColumn`, `BoolColumn`, `JSONColumn`,
`TimestampColumn`, and raw `Column("REAL")`). -/
inductive ColKind : Type where
  | text : ColKind
  | integer : ColKind
  | boolean : ColKind
  | json : ColKind
  | timestamp : ColKind
  | raw : String → ColKind
deriving DecidableEq

/-- A column descriptor: kind plus optional constraint. -/
structure ColSpec where
  kind : ColKind
  constraint : Option SqlConstraint
deriving DecidableEq

/-- Table constructor arguments: ordered column map and the optional
explicit composite primary key. -/
structure TableSpec where
  columns : List (String × ColSpec)
  primary_key : Option (List String)
deriving DecidableEq

/-- `TextColumn()` -/
def textCol : ColSpec := ⟨.text, none⟩
/-- `TextColumn(constraint=Constraint.PRIMARY_KEY)` -/
def textColPK : ColSpec := ⟨.text, some .primaryKey⟩
/-- `TextColumn(constraint=Constraint.NOT_NULL)` -/
def textColNN : ColSpec := ⟨.text, some .notNull⟩
/-- `IntegerColumn(constraint=Constraint.NOT_NULL)` -/
def intColNN : ColSpec := ⟨.integer, some .notNull⟩
/-- `BoolColumn()` -/
def boolCol : ColSpec := ⟨.boolean, none⟩
/-- `JSONColumn()` -/
def jsonCol : ColSpec := ⟨.json, none⟩
/-- `TimestampColumn()` -/
def tsCol : ColSpec := ⟨.timestamp, none⟩
/-- `Column("REAL")` -/
def realCol : ColSpec := ⟨.raw "REAL", none⟩

/-- v4.0 `checkouts` table arguments (v04_00.py lines 165-185). -/
def checkouts_args : TableSpec :=
  ⟨[("id", textColPK),
    ("origin", textColNN),
    ("tree_name", textCol),
    ("git_repository_url", textCol),
    ("git_commit_hash", textCol),
    ("git_commit_name", textCol),
    ("git_repository_branch", textCol),
    ("patchset_files", jsonCol),
    ("patchset_hash", textCol),
    ("message_id", textCol),
    ("comment", textCol),
    ("start_time", tsCol),
    ("contacts", jsonCol),
    ("log_url", textCol),
    ("log_excerpt", textCol),
    ("valid", boolCol),
    ("misc", jsonCol)], none⟩

/-- v4.0 `builds` table arguments (v04_00.py lines 186-206). -/
def builds_args : TableSpec :=
  ⟨[("checkout_id", textColNN),
    ("id", textColPK),
    ("origin", textColNN),
    ("comment", textCol),
    ("start_time", tsCol),
    ("duration", realCol),
    ("architecture", textCol),
    ("command", textCol),
    ("compiler", textCol),
    ("input_files", jsonCol),
    ("output_files", jsonCol),
    ("config_name", textCol),
    ("config_url", textCol),
    ("log_url", textCol),
    ("log_excerpt", textCol),
    ("valid", boolCol),
    ("misc", jsonCol)], none⟩

/-- v4.0 `tests` table arguments (v04_00.py lines 207-225). -/
def tests_args : TableSpec :=
  ⟨[("build_id", textColNN),
    ("id", textColPK),
    ("origin", textColNN),
    ("environment.comment", textCol),
    ("environment.misc", jsonCol),
    ("path", textCol),
    ("comment", textCol),
    ("log_url", textCol),
    ("log_excerpt", textCol),
    ("status", textCol),
    ("waived", boolCol),
    ("start_time", tsCol),
    ("duration", realCol),
    ("output_files", jsonCol),
    ("misc", jsonCol)], none⟩

/-- v4.1 `issues` table arguments (v04_01.py lines 27-43), with the
explicit composite primary key `["id", "version"]`. -/
def issues_args : TableSpec :=
  ⟨[("id", textColNN),
    ("version", intColNN),
    ("origin", textColNN),
    ("report_url", textCol),
    ("report_subject", textCol),
    ("culprit.code", boolCol),
    ("culprit.tool", boolCol),
    ("culprit.harness", boolCol),
    ("build_valid", boolCol),
    ("test_status", textCol),
    ("comment", textCol),
    ("misc", jsonCol)], some ["id", "version"]⟩

/-- v4.1 `incidents` table arguments (v04_01.py lines 44-57). -/
def incidents_args : TableSpec :=
  ⟨[("id", textColPK),
    ("origin", textColNN),
    ("issue_id", textColNN),
    ("issue_version", intColNN),
    ("build_id", textCol),
    ("test_id", textCol),
    ("present", boolCol),
    ("comment", textCol),
    ("misc", jsonCol)], none⟩

/-- `Schema.TABLES_ARGS` of schema v4.0, in declaration order. -/
def v40_TABLES_ARGS : List (String × TableSpec) :=
  [("checkouts", checkouts_args),
   ("builds", builds_args),
   ("tests", tests_args)]

/-- `Schema.TABLES_ARGS` of schema v4.1:
`dict(**PreviousSchema.TABLES_ARGS, issues=..., incidents=...)`. -/
def v41_TABLES_ARGS : List (String × TableSpec) :=
  v40_TABLES_ARGS ++ [("issues", issues_args), ("incidents", incidents_args)]

/-! ## `Schema._inherit` of v4.1 (v04_01.py lines 108-132) -/

/-- A statement `_inherit` issues against the database. -/
inductive DBStmt : Type where
  | createTable : String → TableSpec → DBStmt
deriving DecidableEq

/-- The table a statement operates on. -/
def DBStmt.target : DBStmt → String
  | .createTable nm _ => nm

/-- The statements `_inherit` executes: for every entry of the v4.1 table
map whose name is absent from the v4.0 table map, a CREATE TABLE
(`if table_name not in PreviousSchema.TABLES`, lines 121-130). -/
def inherit_statements : List DBStmt :=
  v41_TABLES_ARGS.filterMap (fun p =>
    if (List.lookup p.1 v40_TABLES_ARGS).isSome then none
    else some (.createTable p.1 p.2))

/-- A live database for the upgrade step: per table, its structure and its
stored rows (row contents abstracted to `A`). -/
abbrev SchemaDB (A : Type) := List (String × TableSpec × List A)

/-- Effect of one statement: CREATE TABLE adds a new, empty table. -/
def applyStmt {A : Type} (db : SchemaDB A) : DBStmt → SchemaDB A
  | .createTable nm spec => db ++ [(nm, spec, [])]

/-- `Schema._inherit` applied to a live database: execute the statements in
order. -/
def inherit_apply {A : Type} (db : SchemaDB A) : SchemaDB A :=
  inherit_statements.foldl applyStmt db

/-! ## OO query rendering of an empty identity set
(`Schema._oo_query_render`, v04_00.py lines 722-792)

When `pattern.obj_id_set` is present (not `None`) but empty, the rendered
statement is the type-level base statement with `" WHERE 0"` appended and
an empty parameter list (lines 760-765: `# We cannot represent empty
"VALUES"`).  The base statements below transcribe `Schema.OO_QUERIES` of
v04_00.py (lines 235-431) and the v4.1 overrides of v04_01.py (lines
67-106). -/

/-- v4.0 `revision` base statement (ends in a GROUP BY clause). -/
def revision_statement : String :=
  "SELECT\n" ++
  "    git_commit_hash,\n" ++
  "    patchset_hash,\n" ++
  "    patchset_files,\n" ++
  "    git_commit_name\n" ++
  "FROM checkouts\n" ++
  "GROUP BY git_commit_hash, patchset_hash"

/-- v4.0 `checkout` base statement. -/
def checkout_statement : String :=
  "SELECT\n" ++
  "    id,\n" ++
  "    git_commit_hash,\n" ++
  "    NULL AS git_commit_tags,\n" ++
  "    NULL AS git_commit_message,\n" ++
  "    patchset_hash,\n" ++
  "    origin,\n" ++
  "    git_repository_url,\n" ++
  "    git_repository_branch,\n" ++
  "    NULL AS git_repository_branch_tip,\n" ++
  "    tree_name,\n" ++
  "    message_id,\n" ++
  "    start_time,\n" ++
  "    log_url,\n" ++
  "    comment,\n" ++
  "    valid,\n" ++
  "    misc\n" ++
  "FROM checkouts"

/-- v4.0 `build` base statement. -/
def build_statement : String :=
  "SELECT\n" ++
  "    id,\n" ++
  "    checkout_id,\n" ++
  "    origin,\n" ++
  "    start_time,\n" ++
  "    duration,\n" ++
  "    architecture,\n" ++
  "    command,\n" ++
  "    compiler,\n" ++
  "    input_files,\n" ++
  "    output_files,\n" ++
  "    config_name,\n" ++
  "    config_url,\n" ++
  "    log_url,\n" ++
  "    comment,\n" ++
  "    CASE valid\n" ++
  "        WHEN TRUE THEN 'PASS'\n" ++
  "        WHEN FALSE THEN 'FAIL'\n" ++
  "        ELSE NULL\n" ++
  "    END AS status,\n" ++
  "    misc\n" ++
  "FROM builds"

/-- v4.0 `test` base statement. -/
def test_statement : String :=
  "SELECT\n" ++
  "    id,\n" ++
  "    build_id,\n" ++
  "    origin,\n" ++
  "    path,\n" ++
  "    \x22environment.comment\x22 AS environment_comment,\n" ++
  "    NULL AS environment_compatible,\n" ++
  "    \x22environment.misc\x22 AS environment_misc,\n" ++
  "    log_url,\n" ++
  "    status,\n" ++
  "    NULL AS number_value,\n" ++
  "    NULL AS number_unit,\n" ++
  "    NULL AS number_prefix,\n" ++
  "    start_time,\n" ++
  "    duration,\n" ++
  "    output_files,\n" ++
  "    comment,\n" ++
  "    misc\n" ++
  "FROM tests"

/-- v4.0 `issue` placeholder base statement. -/
def issue_statement_v40 : String :=
  "SELECT\n" ++
  "    NULL AS id,\n" ++
  "    NULL AS origin\n" ++
  "WHERE 0"

/-- v4.0 `issue_version` placeholder base statement. -/
def issue_version_statement_v40 : String :=
  "SELECT\n" ++
  "    NULL AS id,\n" ++
  "    NULL AS version_num,\n" ++
  "    NULL AS origin,\n" ++
  "    NULL AS report_url,\n" ++
  "    NULL AS report_subject,\n" ++
  "    NULL AS culprit_code,\n" ++
  "    NULL AS culprit_tool,\n" ++
  "    NULL AS culprit_harness,\n" ++
  "    NULL AS comment,\n" ++
  "    NULL AS misc\n" ++
  "WHERE 0"

/-- v4.0 `incident` placeholder base statement. -/
def incident_statement_v40 : String :=
  "SELECT\n" ++
  "    NULL AS id,\n" ++
  "    NULL AS origin,\n" ++
  "    NULL AS issue_id,\n" ++
  "    NULL AS issue_version_num,\n" ++
  "    NULL AS build_id,\n" ++
  "    NULL AS test_id,\n" ++
  "    NULL AS present,\n" ++
  "    NULL AS comment,\n" ++
  "    NULL AS misc\n" ++
  "WHERE 0"

/-- v4.1 `issue` base statement (ends in a GROUP BY clause). -/
def issue_statement_v41 : String :=
  "SELECT\n" ++
  "    id,\n" ++
  "    origin\n" ++
  "FROM issues\n" ++
  "GROUP BY id"

/-- v4.1 `issue_version` base statement. -/
def issue_version_statement_v41 : String :=
  "SELECT\n" ++
  "    id,\n" ++
  "    version AS version_num,\n" ++
  "    origin,\n" ++
  "    report_url,\n" ++
  "    report_subject,\n" ++
  "    \x22culprit.code\x22 AS culprit_code,\n" ++
  "    \x22culprit.tool\x22 AS culprit_tool,\n" ++
  "    \x22culprit.harness\x22 AS culprit_harness,\n" ++
  "    comment,\n" ++
  "    misc\n" ++
  "FROM issues"

/-- v4.1 `incident` base statement. -/
def incident_statement_v41 : String :=
  "SELECT\n" ++
  "    id,\n" ++
  "    origin,\n" ++
  "    issue_id,\n" ++
  "    issue_version AS issue_version_num,\n" ++
  "    build_id,\n" ++
  "    test_id,\n" ++
  "    present,\n" ++
  "    comment,\n" ++
  "    misc\n" ++
  "FROM incidents"

/-- `Schema.OO_QUERIES[name]["statement"]` of schema v4.0. -/
def oo_statement_v40 : String → String
  | "revision" => revision_statement
  | "checkout" => checkout_statement
  | "build" => build_statement
  | "test" => test_statement
  | "issue" => issue_statement_v40
  | "issue_version" => issue_version_statement_v40
  | "incident" => incident_statement_v40
  | _ => ""

/-- `Schema.OO_QUERIES[name]["statement"]` of schema v4.1
(`merge_dicts` of the v4.0 map with the three overrides). -/
def oo_statement_v41 : String → String
  | "issue" => issue_statement_v41
  | "issue_version" => issue_version_statement_v41
  | "incident" => incident_statement_v41
  | nm => oo_statement_v40 nm

/-- The object type names of the OO schema (the keys of `OO_QUERIES`). -/
def oo_type_names : List String :=
  ["revision", "checkout", "build", "test", "issue", "issue_version",
   "incident"]

/-- `Schema._oo_query_render` on a base-less pattern whose `obj_id_set` is
present but empty (lines 760-765): the type's base statement with
`" WHERE 0"` appended, and an empty parameter list. -/
def oo_query_render_empty_ids (statement : String) : String × List String :=
  (statement ++ " WHERE 0", [])

/-- Whether the first list of characters is a prefix of the second. -/
def isPrefixList : List Char → List Char → Bool
  | [], _ => true
  | _ :: _, [] => false
  | p :: ps, c :: cs => p == c && isPrefixList ps cs

/-- Whether a token occurs somewhere in a list of characters. -/
def containsTok (pat : List Char) : List Char → Bool
  | [] => pat.isEmpty
  | c :: cs => isPrefixList pat (c :: cs) || containsTok pat cs

/-- The characters following the last occurrence of a token, when the
token occurs at all. -/
def afterLastTok (pat : List Char) : List Char → Option (List Char)
  | [] => none
  | c :: cs =>
      match afterLastTok pat cs with
      | some rest => some rest
      | none =>
          if isPrefixList pat (c :: cs) then
            some (List.drop pat.length (c :: cs))
          else none

/-- Whether a rendered statement places a `WHERE` clause after a
`GROUP BY` clause.  SQLite's `SELECT` grammar puts `WHERE` strictly before
`GROUP BY` (only `HAVING`, `ORDER BY` and `LIMIT` may follow), so any
statement for which this holds is a syntax error, not an always-false
restriction. -/
def whereAfterGroupBy (s : String) : Bool :=
  match afterLastTok "GROUP BY".toList s.toList with
  | some rest => containsTok "WHERE".toList rest
  | none => false

/-! ## Lemmas about the chunked emission loop -/

theorem docSize_nil {A : Type} : docSize ([] : Doc A) = 0 := rfl

theorem docSize_addToDoc {A : Type} (name : String) (o : A) (d : Doc A) :
    docSize (addToDoc name o d) = docSize d + 1 := by
  induction d with
  | nil => simp [addToDoc, docSize]
  | cons p rest ih =>
      by_cases hp : p.1 = name
      · simp [addToDoc, hp, docSize]
        omega
      · simp [addToDoc, hp, docSize] at ih ⊢
        omega

theorem docCat_addToDoc {A : Type} (nm name : String) (o : A) (d : Doc A) :
    docCat nm (addToDoc name o d) =
      if nm = name then docCat nm d ++ [o] else docCat nm d := by
  induction d with
  | nil =>
      by_cases h : nm = name
      · subst h; simp [addToDoc, docCat, List.lookup]
      · have hb : (nm == name) = false := beq_eq_false_iff_ne.mpr h
        simp [addToDoc, docCat, List.lookup, h, hb]
  | cons p rest ih =>
      by_cases hp : p.1 = name
      · by_cases hnm : nm = name
        · have he : nm = p.1 := by rw [hnm, hp]
          have hb : (nm == p.1) = true := beq_iff_eq.mpr he
          have hb2 : (nm == name) = true := beq_iff_eq.mpr hnm
          simp [addToDoc, hp, docCat, List.lookup, hb, hb2, hnm]
        · have hne : ¬ nm = p.1 := fun he => hnm (he.trans hp)
          have hb : (nm == p.1) = false := beq_eq_false_iff_ne.mpr hne
          have hb2 : (nm == name) = false := beq_eq_false_iff_ne.mpr hnm
          simp [addToDoc, hp, docCat, List.lookup, hb, hb2, hnm]
      · by_cases hnm : nm = p.1
        · have hne : ¬ nm = name := fun he => hp (hnm ▸ he)
          have hb : (nm == p.1) = true := beq_iff_eq.mpr hnm
          simp [addToDoc, hp, docCat, List.lookup, hb, hne]
        · have hb : (nm == p.1) = false := beq_eq_false_iff_ne.mpr hnm
          simp only [addToDoc, if_neg hp, docCat, List.lookup, hb] at ih ⊢
          exact ih

theorem chunkInv_init {A : Type} (n : Nat) :
    ChunkInv n (⟨[], 0, []⟩ : ChunkSt A) := by
  refine ⟨rfl, fun _ => rfl, by simp, fun h => Nat.pos_of_ne_zero h,
    fun _ => rfl⟩

theorem chunkInv_step {A : Type} {n : Nat} {st : ChunkSt A}
    (name : String) (o : A) (h : ChunkInv n st) :
    ChunkInv n (stepObj n name st o) := by
  unfold stepObj
  by_cases hc : n ≠ 0 ∧ n ≤ st.objNum + 1
  · simp only [if_pos hc]
    refine ⟨rfl, fun _ => rfl, ?_, fun _ => Nat.pos_of_ne_zero hc.1,
      fun h0 => absurd h0 hc.1⟩
    intro d hd
    rcases List.mem_append.mp hd with hd | hd
    · exact h.docs_full d hd
    · have hd' : d = addToDoc name o st.data := by simpa using hd
      subst hd'
      have := h.num_lt hc.1
      rw [docSize_addToDoc, h.data_size]
      omega
  · simp only [if_neg hc]
    refine ⟨by rw [docSize_addToDoc, h.data_size], ?_, h.docs_full,
      ?_, h.docs_nil⟩
    · intro h0
      simp at h0
    · intro hn
      rcases Decidable.not_and_iff_or_not.mp hc with hc' | hc'
      · exact absurd hn (by simpa using hc')
      · have : ¬ n ≤ st.objNum + 1 := hc'
        simp only [ChunkSt.objNum]
        omega

theorem stTotal_step {A : Type} {n : Nat} {st : ChunkSt A}
    (name : String) (o : A) (h : ChunkInv n st) :
    stTotal n (stepObj n name st o) = stTotal n st + 1 := by
  unfold stepObj stTotal
  by_cases hc : n ≠ 0 ∧ n ≤ st.objNum + 1
  · simp only [if_pos hc, ChunkSt.docs, ChunkSt.objNum,
      List.length_append, List.length_cons, List.length_nil]
    have hlt := h.num_lt hc.1
    have hn2 : n = st.objNum + 1 := by omega
    subst hn2
    ring
  · simp only [if_neg hc, ChunkSt.docs, ChunkSt.objNum]
    rw [Nat.add_assoc]

theorem docCat_nil {A : Type} (nm : String) : docCat nm ([] : Doc A) = [] :=
  rfl

theorem emitCat_append {A : Type} (nm : String) (a b : List (Doc A)) :
    emitCat nm (a ++ b) = emitCat nm a ++ emitCat nm b := by
  simp [emitCat]

theorem emitCat_singleton {A : Type} (nm : String) (d : Doc A) :
    emitCat nm [d] = docCat nm d := by
  simp [emitCat]

theorem docsCat_step {A : Type} (n : Nat) (nm name : String) (o : A)
    (st : ChunkSt A) :
    docsCat nm (stepObj n name st o) =
      docsCat nm st ++ (if nm = name then [o] else []) := by
  unfold stepObj docsCat
  by_cases hc : n ≠ 0 ∧ n ≤ st.objNum + 1
  · simp only [if_pos hc, ChunkSt.docs, ChunkSt.data]
    rw [docCat_nil, emitCat_append, emitCat_singleton, docCat_addToDoc]
    by_cases h : nm = name <;> simp [h]
  · simp only [if_neg hc, ChunkSt.docs, ChunkSt.data]
    rw [docCat_addToDoc]
    by_cases h : nm = name <;> simp [h]

theorem chunkInv_chunkObjs {A : Type} {n : Nat} (name : String)
    (os : List A) {st : ChunkSt A} (h : ChunkInv n st) :
    ChunkInv n (chunkObjs n name st os) := by
  induction os generalizing st with
  | nil => exact h
  | cons o os ih => exact ih (chunkInv_step name o h)

theorem stTotal_chunkObjs {A : Type} {n : Nat} (name : String)
    (os : List A) {st : ChunkSt A} (h : ChunkInv n st) :
    stTotal n (chunkObjs n name st os) = stTotal n st + os.length := by
  induction os generalizing st with
  | nil => simp [chunkObjs]
  | cons o os ih =>
      rw [chunkObjs, ih (chunkInv_step name o h), stTotal_step name o h]
      simp
      omega

theorem docsCat_chunkObjs {A : Type} {n : Nat} (nm name : String)
    (os : List A) (st : ChunkSt A) :
    docsCat nm (chunkObjs n name st os) =
      docsCat nm st ++ (if nm = name then os else []) := by
  induction os generalizing st with
  | nil => simp [chunkObjs]
  | cons o os ih =>
      rw [chunkObjs, ih, docsCat_step]
      by_cases h : nm = name <;> simp [h]

theorem chunkInv_chunkRun {A : Type} {n : Nat}
    (ts : List (String × List A)) {st : ChunkSt A} (h : ChunkInv n st) :
    ChunkInv n (chunkRun n st ts) := by
  induction ts generalizing st with
  | nil => exact h
  | cons t ts ih => exact ih (chunkInv_chunkObjs t.1 t.2 h)

theorem stTotal_chunkRun {A : Type} {n : Nat}
    (ts : List (String × List A)) {st : ChunkSt A} (h : ChunkInv n st) :
    stTotal n (chunkRun n st ts) = stTotal n st + totalObjs ts := by
  induction ts generalizing st with
  | nil => simp [chunkRun, totalObjs]
  | cons t ts ih =>
      rw [chunkRun, ih (chunkInv_chunkObjs t.1 t.2 h),
        stTotal_chunkObjs t.1 t.2 h]
      simp [totalObjs]
      omega

theorem docsCat_chunkRun {A : Type} (n : Nat) (nm : String)
    (ts : List (String × List A)) (st : ChunkSt A) :
    docsCat nm (chunkRun n st ts) = docsCat nm st ++ tablesCat nm ts := by
  induction ts generalizing st with
  | nil => simp [chunkRun, tablesCat]
  | cons t ts ih =>
      rw [chunkRun, ih, docsCat_chunkObjs]
      by_cases h : nm = t.1 <;> simp [tablesCat, h, Eq.comm]

theorem emitCat_chunkEmit {A : Type} (nm : String)
    (tables : List (String × List A)) (n : Nat) :
    emitCat nm (chunkEmit tables n) = tablesCat nm tables := by
  have hinv := chunkInv_chunkRun (n := n) tables (chunkInv_init n)
  have hcat := docsCat_chunkRun n nm tables (⟨[], 0, []⟩ : ChunkSt A)
  unfold chunkEmit
  set st := chunkRun n (⟨[], 0, []⟩ : ChunkSt A) tables with hst
  by_cases h0 : st.objNum ≠ 0
  · simp only [if_pos h0]
    have : docsCat nm st = tablesCat nm tables := by
      simpa [docsCat, emitCat, docCat] using hcat
    simpa [docsCat, emitCat] using this
  · simp only [if_neg h0]
    have hdata : st.data = [] := hinv.data_nil (by omega)
    have : docsCat nm st = tablesCat nm tables := by
      simpa [docsCat, emitCat, docCat] using hcat
    rw [docsCat, hdata] at this
    simpa [emitCat, docCat] using this

theorem div_ceil_helper (q r n : Nat) (hr : r < n) :
    (q * n + r + n - 1) / n = q + (if r = 0 then 0 else 1) := by
  by_cases h0 : r = 0
  · simp only [if_pos h0, Nat.add_zero]
    refine Nat.div_eq_of_lt_le (by omega) ?_
    have e1 : (q + 1) * n = q * n + n := by ring
    rw [e1]
    omega
  · simp only [if_neg h0]
    refine Nat.div_eq_of_lt_le ?_ ?_
    · have e1 : (q + 1) * n = q * n + n := by ring
      rw [e1]
      omega
    · have e2 : (q + 1 + 1) * n = q * n + n + n := by ring
      rw [e2]
      omega

theorem chunkEmit_length {A : Type} (tables : List (String × List A))
    (n : Nat) (hn : n ≠ 0) :
    (chunkEmit tables n).length = (totalObjs tables + n - 1) / n := by
  have hinv := chunkInv_chunkRun (n := n) tables (chunkInv_init n)
  have htot := stTotal_chunkRun (n := n) tables (chunkInv_init n)
  unfold chunkEmit
  set st := chunkRun n (⟨[], 0, []⟩ : ChunkSt A) tables with hst
  have hk : st.docs.length * n + st.objNum = totalObjs tables := by
    simpa [stTotal] using htot
  have hlt := hinv.num_lt hn
  rw [← hk, div_ceil_helper st.docs.length st.objNum n hlt]
  by_cases h0 : st.objNum = 0 <;> simp [h0]

theorem chunkEmit_doc_size {A : Type} (tables : List (String × List A))
    (n : Nat) (hn : n ≠ 0) :
    ∀ d ∈ chunkEmit tables n, docSize d ≤ n ∧ docSize d ≠ 0 := by
  have hinv := chunkInv_chunkRun (n := n) tables (chunkInv_init n)
  unfold chunkEmit
  set st := chunkRun n (⟨[], 0, []⟩ : ChunkSt A) tables with hst
  intro d hd
  by_cases h0 : st.objNum ≠ 0
  · simp only [if_pos h0] at hd
    rcases List.mem_append.mp hd with hd | hd
    · have := hinv.docs_full d hd
      omega
    · have hd' : d = st.data := by simpa using hd
      subst hd'
      rw [hinv.data_size]
      have := hinv.num_lt hn
      omega
  · simp only [if_neg h0] at hd
    have := hinv.docs_full d hd
    omega

theorem chunkEmit_zero_nonempty {A : Type} (tables : List (String × List A))
    (hk : totalObjs tables ≠ 0) :
    (chunkEmit tables 0).length = 1 ∧
      ∀ d ∈ chunkEmit tables 0, docSize d = totalObjs tables := by
  have hinv := chunkInv_chunkRun (n := 0) tables (chunkInv_init 0)
  have htot := stTotal_chunkRun (n := 0) tables (chunkInv_init 0)
  unfold chunkEmit
  set st := chunkRun 0 (⟨[], 0, []⟩ : ChunkSt A) tables with hst
  have hdocs : st.docs = [] := hinv.docs_nil rfl
  have hnum : st.objNum = totalObjs tables := by
    simp [stTotal, hdocs] at htot
    omega
  have h0 : st.objNum ≠ 0 := by omega
  constructor
  · simp [if_pos h0, hdocs]
  · intro d hd
    simp [if_pos h0, hdocs] at hd
    subst hd
    rw [hinv.data_size, hnum]

theorem chunkEmit_zero_empty {A : Type} (tables : List (String × List A))
    (hk : totalObjs tables = 0) :
    chunkEmit tables 0 = [] := by
  have hinv := chunkInv_chunkRun (n := 0) tables (chunkInv_init 0)
  have htot := stTotal_chunkRun (n := 0) tables (chunkInv_init 0)
  unfold chunkEmit
  set st := chunkRun 0 (⟨[], 0, []⟩ : ChunkSt A) tables with hst
  have hdocs : st.docs = [] := hinv.docs_nil rfl
  have hnum : st.objNum = 0 := by
    simp [stTotal, hdocs] at htot
    omega
  simp [hnum, hdocs]

theorem chunkEmit_doc_nonzero {A : Type} (tables : List (String × List A))
    (n : Nat) : ∀ d ∈ chunkEmit tables n, docSize d ≠ 0 := by
  by_cases hn : n = 0
  · subst hn
    by_cases hk : totalObjs tables = 0
    · rw [chunkEmit_zero_empty tables hk]
      simp
    · intro d hd
      rw [(chunkEmit_zero_nonempty tables hk).2 d hd]
      exact hk
  · intro d hd
    exact (chunkEmit_doc_size tables n hn d hd).2

/-- C1 (amended): for every chunk size `n > 0` and database state holding
`k` total objects, `dump_iter` and `query_iter` emit `ceil(k/n)` report
documents, each containing at most `n` objects, with the concatenation of
all emitted objects grouped by object type equal to the unchunked result;
for `n = 0` they emit exactly one document containing everything when
`k > 0` and no document at all when `k = 0`; no emitted document is empty.
(The unamended claim asserted exactly one document for `n = 0` even at
`k = 0`; see the counterexample.) -/
theorem C1_chunking {A : Type} (tables : List (String × List A)) (n : Nat) :
    (n ≠ 0 → (dump_iter tables n).length = (totalObjs tables + n - 1) / n)
    ∧ (n ≠ 0 → ∀ d ∈ dump_iter tables n, docSize d ≤ n)
    ∧ (∀ d ∈ dump_iter tables n, docSize d ≠ 0)
    ∧ (∀ nm, emitCat nm (dump_iter tables n) = tablesCat nm tables)
    ∧ (totalObjs tables ≠ 0 → (dump_iter tables 0).length = 1)
    ∧ (totalObjs tables = 0 → dump_iter tables 0 = [])
    ∧ (∀ (db : DB) ids ch pa,
        query_iter db ids ch pa n = chunkEmit (queryFetch db ids ch pa) n) :=
  ⟨fun hn => chunkEmit_length tables n hn,
    fun hn d hd => (chunkEmit_doc_size tables n hn d hd).1,
    chunkEmit_doc_nonzero tables n,
    fun nm => emitCat_chunkEmit nm tables n,
    fun hk => (chunkEmit_zero_nonempty tables hk).1,
    chunkEmit_zero_empty tables,
    fun _ _ _ _ => rfl⟩

/-- C1 counterexample: on a database state holding zero objects and chunk
size 0, `dump_iter` emits no document at all, not the single document the
claim asserts. -/
theorem C1_counterexample :
    ¬ (dump_iter [("checkouts", ([] : List Nat))] 0).length = 1 := by
  decide

/-- Witness for C1: the amended theorem applied at a concrete input —
five objects in two tables with chunk size 2 give `ceil(5/2) = 3`
documents whose first document holds at most 2 objects, and chunk size 0
on the same non-empty state gives exactly one document. -/
theorem C1_witness :
    (dump_iter [("checkouts", [1, 2, 3]), ("builds", ([4, 5] : List Nat))]
        2).length =
      (totalObjs [("checkouts", [1, 2, 3]),
        ("builds", ([4, 5] : List Nat))] + 2 - 1) / 2
    ∧ docSize [("checkouts", ([1, 2] : List Nat))] ≤ 2
    ∧ (dump_iter [("checkouts", [1, 2, 3]),
        ("builds", ([4, 5] : List Nat))] 0).length = 1 :=
  ⟨(C1_chunking [("checkouts", [1, 2, 3]), ("builds", [4, 5])] 2).1
      (by decide),
    (C1_chunking [("checkouts", [1, 2, 3]), ("builds", [4, 5])] 2).2.1
      (by decide) [("checkouts", [1, 2])] (by decide),
    (C1_chunking [("checkouts", [1, 2, 3]),
        ("builds", [4, 5])] 0).2.2.2.2.1 (by decide)⟩

/-! ## Lemmas about the `query_iter` graph walks -/

theorem objName_checkouts_id : objNameOf "checkouts" ++ "_id" = "checkout_id" := by
  decide

theorem objName_builds_id : objNameOf "builds" ++ "_id" = "build_id" := by
  decide

/-- C2: for a test identity `tid` present in the database (`t` being the
unique test row with that id, by primary-key uniqueness of the `id`
column), whose owning build `b` and that build's owning checkout `c` are
present (also unique under their ids), `query_iter` with
`ids = {"tests": [tid]}`, `parents = True`, `children = False` fetches
exactly `t`, `b` and `c` and no other checkout, build or test; moreover
the parent walk builds the selectors post-order: the selector of
`checkouts` embeds the finalized selector list of `builds`, which embeds
the finalized selector list of `tests`. -/
theorem C2_parents_query (cs bs ts : List QRow) (tid bid cid : String)
    (t b c : QRow)
    (hts : ts.filter (fun r => r.id == tid) = [t])
    (htb : List.lookup "build_id" t.refs = some bid)
    (hbs : bs.filter (fun r => r.id == bid) = [b])
    (hbc : List.lookup "checkout_id" b.refs = some cid)
    (hcs : cs.filter (fun r => r.id == cid) = [c]) :
    queryFetch ⟨[("checkouts", cs), ("builds", bs), ("tests", ts)]⟩
        [("tests", [tid])] false true =
      [("checkouts", [c]), ("builds", [b]), ("tests", [t])]
    ∧ buildQueries [("tests", [tid])] false true =
      [("checkouts", [Sel.parentJoin "checkout" "builds"
          [Sel.parentJoin "build" "tests" [Sel.values [tid]]]]),
       ("builds", [Sel.parentJoin "build" "tests" [Sel.values [tid]]]),
       ("tests", [Sel.values [tid]])] := by
  constructor
  · simp [queryFetch, buildQueries, initQueries, add_parents, graphFuel,
      ioGraph, ioListNames, lookupIds, getSels, appendSel, List.lookup,
      objName_checkouts_id, objName_builds_id, evalSel, evalSels, melem,
      DB.rows, Bool.or_false, hts, htb, hbs, hbc, hcs, List.reduceOption]
  · rfl

/-- Witness for C2: a database with two checkouts, two builds and two
tests; querying test `t1` with parent expansion returns exactly `t1`, its
build `b1` and that build's checkout `c1`. -/
theorem C2_witness :
    queryFetch ⟨[("checkouts", [⟨"c1", []⟩, ⟨"c2", []⟩]),
        ("builds", [⟨"b1", [("checkout_id", "c1")]⟩,
          ⟨"b2", [("checkout_id", "c2")]⟩]),
        ("tests", [⟨"t1", [("build_id", "b1")]⟩,
          ⟨"t2", [("build_id", "b2")]⟩])]⟩
      [("tests", ["t1"])] false true =
      [("checkouts", [⟨"c1", []⟩]),
       ("builds", [⟨"b1", [("checkout_id", "c1")]⟩]),
       ("tests", [⟨"t1", [("build_id", "b1")]⟩])] :=
  (C2_parents_query [⟨"c1", []⟩, ⟨"c2", []⟩]
    [⟨"b1", [("checkout_id", "c1")]⟩, ⟨"b2", [("checkout_id", "c2")]⟩]
    [⟨"t1", [("build_id", "b1")]⟩, ⟨"t2", [("build_id", "b2")]⟩]
    "t1" "b1" "c1"
    ⟨"t1", [("build_id", "b1")]⟩ ⟨"b1", [("checkout_id", "c1")]⟩
    ⟨"c1", []⟩
    (by decide) (by decide) (by decide) (by decide) (by decide)).1

/-- C3: the child-expansion walk of `query_iter` is pre-order/top-down over
the fixed type graph: starting from arbitrary accumulated selector lists
`cs`, `bs`, `ts` for checkouts, builds and tests, the walk leaves the root
type's selectors unchanged, and appends to each child type exactly one
selector built from the *final* selector list of its parent (the parent's
selectors are finalized before the child selector is added); a type whose
final selector list is empty contributes no selector to its children. -/
theorem C3_child_expansion (cs bs ts : List Sel) :
    ((ioGraph "").foldl (fun qs nm => add_children graphFuel nm qs)
        [("checkouts", cs), ("builds", bs), ("tests", ts)]) =
      [("checkouts", cs),
       ("builds", bs ++ (if cs.isEmpty then []
          else [Sel.childJoin "builds" "checkouts" cs])),
       ("tests", ts ++ (if (bs ++ (if cs.isEmpty then []
          else [Sel.childJoin "builds" "checkouts" cs])).isEmpty then []
          else [Sel.childJoin "tests" "builds"
            (bs ++ (if cs.isEmpty then []
              else [Sel.childJoin "builds" "checkouts" cs]))]))] := by
  rcases cs with _ | ⟨c, cs⟩ <;> rcases bs with _ | ⟨b, bs⟩ <;>
    simp [add_children, graphFuel, ioGraph, getSels, appendSel, List.lookup]

/-- C10: `query_iter`'s result depends only on the restriction of `ids` to
the object list names known to the I/O schema — two `ids` mappings that
agree on every known name (in particular, a mapping with extra unknown
keys and the same mapping with them removed) produce identical document
sequences. -/
theorem C10_unknown_ids_ignored (db : DB)
    (ids ids2 : List (String × List String)) (ch pa : Bool) (n : Nat)
    (h : ∀ nm ∈ ioListNames, lookupIds ids nm = lookupIds ids2 nm) :
    query_iter db ids ch pa n = query_iter db ids2 ch pa n := by
  have hinit : initQueries ids = initQueries ids2 := by
    unfold initQueries
    exact List.map_congr_left (fun nm hnm => by rw [h nm hnm])
  unfold query_iter queryFetch buildQueries
  rw [hinit]

/-- Witness for C10: adding an entry under the unknown key `"bogus"` to an
`ids` mapping leaves the emitted documents unchanged. -/
theorem C10_witness :
    query_iter ⟨[("checkouts", []), ("builds", []),
        ("tests", [⟨"t1", []⟩])]⟩
      [("tests", ["t1"]), ("bogus", ["x"])] false false 0 =
    query_iter ⟨[("checkouts", []), ("builds", []),
        ("tests", [⟨"t1", []⟩])]⟩
      [("tests", ["t1"])] false false 0 :=
  C10_unknown_ids_ignored
    ⟨[("checkouts", []), ("builds", []), ("tests", [⟨"t1", []⟩])]⟩
    [("tests", ["t1"]), ("bogus", ["x"])] [("tests", ["t1"])]
    false false 0 (by decide)

/-! ## Schema-version marker round-trip -/

/-- C5 counterexample: the claim fails as stated.  At `(4, 1000)` the
persisted number is `4 * 1000 + 1000 % 1000 = 4000`, not `5000`, and
reading back gives `(4, 0)`; at `(0, 0)` the persisted number 0 reads back
as `None` (uninitialized), not `(0, 0)`. -/
theorem C5_counterexample :
    ¬ (get_schema_version (set_schema_version (some (4, 1000))) =
          some (4, 1000)
        ∧ set_schema_version (some (4, 1000)) = 4 * 1000 + 1000)
    ∧ ¬ get_schema_version (set_schema_version (some (0, 0))) =
        some (0, 0) := by
  decide

/-- C5 (amended): for every pair `(major, minor)` of non-negative integers
with `minor < 1000` and `(major, minor) ≠ (0, 0)`, setting the schema
version and reading it back on the same connection returns the pair, the
persisted number being `major * 1000 + minor`; after setting `None`, the
version reads back as `None` (uninitialized).  (The unamended claim ranged
over all pairs; the `% 1000` in the encoder and the `if number:` zero test
in the decoder refute it at `minor ≥ 1000` and at `(0, 0)`.) -/
theorem C5_version_roundtrip (major minor : Nat) (h1 : minor < 1000)
    (h2 : ¬(major = 0 ∧ minor = 0)) :
    get_schema_version (set_schema_version (some (major, minor))) =
      some (major, minor)
    ∧ set_schema_version (some (major, minor)) = major * 1000 + minor
    ∧ get_schema_version (set_schema_version none) = none := by
  have hm : minor % 1000 = minor := Nat.mod_eq_of_lt h1
  have henc : set_schema_version (some (major, minor)) =
      major * 1000 + minor := by
    show major * 1000 + minor % 1000 = major * 1000 + minor
    rw [hm]
  refine ⟨?_, henc, rfl⟩
  rw [henc]
  unfold get_schema_version
  rw [if_pos (by omega)]
  have d1 : (major * 1000 + minor) / 1000 = major := by omega
  have d2 : (major * 1000 + minor) % 1000 = minor := by omega
  rw [d1, d2]

/-- Witness for C5: the amended round-trip at the concrete version
`(4, 1)`, persisted as 4001. -/
theorem C5_witness :
    get_schema_version (set_schema_version (some (4, 1))) = some (4, 1)
    ∧ set_schema_version (some (4, 1)) = 4 * 1000 + 1
    ∧ get_schema_version (set_schema_version none) = none :=
  C5_version_roundtrip 4 1 (by decide) (by decide)

/-! ## Load-priority alternation -/

theorem lookup_setRow {A : Type} (k : String) (v : A)
    (rows : List (String × A)) :
    List.lookup k (setRow k v rows) = some v := by
  induction rows with
  | nil => simp [setRow, List.lookup]
  | cons p rest ih =>
      by_cases hp : p.1 = k
      · simp [setRow, hp, List.lookup]
      · have hb : (k == p.1) = false :=
          beq_eq_false_iff_ne.mpr (fun he => hp he.symm)
        simp [setRow, hp, List.lookup, hb, ih]

/-- C6: the `load_prio_db` flag is toggled after every `load` call, so the
INSERT conflict policy of two sequential loads differs — with a row under
key `k` already stored, the call entered with the flag set retains the
in-database row while the call entered with the flag clear retains the
newly loaded row — and a third call runs under the same priority as the
first. -/
theorem C6_load_priority {A : Type} (conn : LoadConn A) (k : String)
    (v0 v1 v2 : A) (data : List (String × A))
    (hv : List.lookup k conn.rows = some v0) :
    (∀ d : List (String × A),
      (load conn d).load_prio_db = !conn.load_prio_db)
    ∧ loadPrioUsed (load conn data) = !loadPrioUsed conn
    ∧ loadPrioUsed (load (load conn data) data) = loadPrioUsed conn
    ∧ (conn.load_prio_db = true →
        List.lookup k (load conn [(k, v1)]).rows = some v0
        ∧ List.lookup k (load (load conn [(k, v1)]) [(k, v2)]).rows =
            some v2)
    ∧ (conn.load_prio_db = false →
        List.lookup k (load conn [(k, v1)]).rows = some v1
        ∧ List.lookup k (load (load conn [(k, v1)]) [(k, v2)]).rows =
            some v1) := by
  refine ⟨fun d => rfl, rfl, by simp [load, loadPrioUsed], ?_, ?_⟩
  · intro hf
    constructor
    · simp [load, loadRows, insertRow, hv, hf]
    · simp [load, loadRows, insertRow, hv, hf, lookup_setRow]
  · intro hf
    constructor
    · simp [load, loadRows, insertRow, hv, hf, lookup_setRow]
    · simp [load, loadRows, insertRow, hv, hf, lookup_setRow]

/-- Witness for C6: a connection whose flag is set and which stores `0`
under `"a"`; the first load keeps the stored row, the second replaces it,
and the third runs under the initial priority again. -/
theorem C6_witness :
    List.lookup "a" (load (⟨true, [("a", 0)]⟩ : LoadConn Nat)
        [("a", 1)]).rows = some 0
    ∧ List.lookup "a" (load (load (⟨true, [("a", 0)]⟩ : LoadConn Nat)
        [("a", 1)]) [("a", 2)]).rows = some 2
    ∧ loadPrioUsed (load (load (⟨true, [("a", 0)]⟩ : LoadConn Nat)
        [("a", 1)]) [("a", 1)]) =
      loadPrioUsed (⟨true, [("a", 0)]⟩ : LoadConn Nat) :=
  ⟨((C6_load_priority ⟨true, [("a", 0)]⟩ "a" 0 1 2 [("a", 1)]
      (by decide)).2.2.2.1 rfl).1,
   ((C6_load_priority ⟨true, [("a", 0)]⟩ "a" 0 1 2 [("a", 1)]
      (by decide)).2.2.2.1 rfl).2,
   (C6_load_priority ⟨true, [("a", 0)]⟩ "a" 0 1 2 [("a", 1)]
      (by decide)).2.2.1⟩

/-! ## Load transactionality -/

/-- C7: `load` is atomic per document — the two validation asserts run
before the transaction opens, so a document failing the structural check
(or, with `LIGHT_ASSERTS` off, the full validation) is rejected with the
database unchanged and no insert executed; and when any insert inside the
transaction fails, the rollback leaves the database in its entry state;
only when every insert succeeds does the state advance. -/
theorem C7_load_transaction {S R : Type} (compatible valid light : Bool)
    (ins : S → R → Option S) (s : S) (rows : List R) :
    (compatible = false →
      load_result compatible valid light ins s rows = s
      ∧ load_tx compatible valid light ins s rows =
          .error .invalid_data)
    ∧ (light = false → valid = false →
      load_result compatible valid light ins s rows = s
      ∧ load_tx compatible valid light ins s rows =
          .error .invalid_data)
    ∧ (insertAllTx ins s rows = none →
      load_result compatible valid light ins s rows = s)
    ∧ (∀ s2, insertAllTx ins s rows = some s2 → compatible = true →
      (light || valid) = true →
      load_result compatible valid light ins s rows = s2) := by
  refine ⟨?_, ?_, ?_, ?_⟩
  · intro hc
    subst hc
    exact ⟨rfl, rfl⟩
  · intro hl hva
    subst hl; subst hva
    cases compatible <;> exact ⟨rfl, rfl⟩
  · intro hins
    unfold load_result load_tx
    cases compatible <;> cases light <;> cases valid <;> simp [hins]
  · intro s2 hins hc hlv
    subst hc
    unfold load_result load_tx
    simp [hlv, hins]

/-- Witness for C7: with an insert that fails on row 99, loading `[1, 99]`
into state 0 leaves the state at 0; loading `[1, 2]` succeeds and advances
the state; and an incompatible document is rejected with the state
unchanged. -/
theorem C7_witness :
    load_result true true false
      (fun s r => if r = 99 then none else some (s + r)) 0 [1, 99] = 0
    ∧ load_result true true false
      (fun s r => if r = 99 then none else some (s + r)) 0 [1, 2] = 3
    ∧ load_result false true false
      (fun s r => if r = 99 then none else some (s + r)) 0 [1, 2] = 0 :=
  ⟨(C7_load_transaction true true false
      (fun s r => if r = 99 then none else some (s + r)) 0 [1, 99]).2.2.1
      rfl,
   (C7_load_transaction true true false
      (fun s r => if r = 99 then none else some (s + r)) 0 [1, 2]).2.2.2
      3 rfl rfl rfl,
   ((C7_load_transaction false true false
      (fun s r => if r = 99 then none else some (s + r)) 0 [1, 2]).1
      rfl).1⟩

/-! ## Schema v4.1 inheritance and table-map superset -/

theorem lookup_append_isSome {B : Type} (nm : String)
    (l1 l2 : List (String × B)) (h : (List.lookup nm l1).isSome) :
    List.lookup nm (l1 ++ l2) = List.lookup nm l1 := by
  rw [List.lookup_append]
  cases hc : List.lookup nm l1 with
  | none => rw [hc] at h; simp at h
  | some v => rfl

/-- C8: `_inherit` of schema v4.1 issues exactly two statements — CREATE
TABLE for `issues` and for `incidents`, the two names in the v4.1 table
map absent from the v4.0 table map — and no statement against any other
table; applying it to a live database leaves the structure and rows of
every pre-existing table unchanged. -/
theorem C8_inherit {A : Type} (db : SchemaDB A) :
    inherit_statements = [DBStmt.createTable "issues" issues_args,
        DBStmt.createTable "incidents" incidents_args]
    ∧ (inherit_statements.all (fun s =>
        (List.lookup s.target v40_TABLES_ARGS).isNone)) = true
    ∧ (∀ nm, (List.lookup nm db).isSome →
        List.lookup nm (inherit_apply db) = List.lookup nm db)
    ∧ inherit_apply db = db ++ [("issues", issues_args, []),
        ("incidents", incidents_args, [])] := by
  have happ : inherit_apply db = db ++ [("issues", issues_args, []),
      ("incidents", incidents_args, [])] := by
    show (db ++ [("issues", issues_args, [])]) ++
        [("incidents", incidents_args, [])] = _
    rw [List.append_assoc]
    rfl
  refine ⟨by decide, by decide, ?_, happ⟩
  intro nm h
  rw [happ]
  exact lookup_append_isSome nm db _ h

/-- Witness for C8: a database holding the three v4.0 tables with one row
each keeps them untouched while gaining empty `issues` and `incidents`
tables. -/
theorem C8_witness :
    List.lookup "checkouts" (inherit_apply
        ([("checkouts", checkouts_args, [0]),
          ("builds", builds_args, [1]),
          ("tests", tests_args, [2])] : SchemaDB Nat)) =
      some (checkouts_args, [0])
    ∧ inherit_apply ([("checkouts", checkouts_args, [0]),
          ("builds", builds_args, [1]),
          ("tests", tests_args, [2])] : SchemaDB Nat) =
        [("checkouts", checkouts_args, [0]),
         ("builds", builds_args, [1]),
         ("tests", tests_args, [2]),
         ("issues", issues_args, []),
         ("incidents", incidents_args, [])] :=
  ⟨by
    rw [(C8_inherit ([("checkouts", checkouts_args, [0]),
        ("builds", builds_args, [1]),
        ("tests", tests_args, [2])] : SchemaDB Nat)).2.2.1
      "checkouts" (by decide)]
    rfl,
   by
    rw [(C8_inherit ([("checkouts", checkouts_args, [0]),
        ("builds", builds_args, [1]),
        ("tests", tests_args, [2])] : SchemaDB Nat)).2.2.2]
    rfl⟩

/-- C9: the v4.1 table map is a strict superset of the v4.0 table map —
every v4.0 table appears in v4.1 under the same name with identical columns
and constraints, and v4.1 adds exactly the `issues` and `incidents` tables
at the end; nothing is removed or altered. -/
theorem C9_tables_superset :
    (v40_TABLES_ARGS.all (fun p =>
      decide (List.lookup p.1 v41_TABLES_ARGS = some p.2))) = true
    ∧ v41_TABLES_ARGS.map Prod.fst =
        v40_TABLES_ARGS.map Prod.fst ++ ["issues", "incidents"]
    ∧ v41_TABLES_ARGS = v40_TABLES_ARGS ++
        [("issues", issues_args), ("incidents", incidents_args)] :=
  ⟨by decide, by decide, rfl⟩

/-! ## OO query rendering of an empty identity set -/

/-- C4 (code bug): for a pattern whose identity set is present but empty,
`_oo_query_render` appends `" WHERE 0"` to the type's base statement with
an empty parameter list — but for the types whose base statement ends in a
`GROUP BY` clause (`revision` in v4.0 and v4.1, `issue` in v4.1) the
result places a `WHERE` clause after `GROUP BY`, which SQLite's grammar
rejects, so the rendered statement is a syntax error rather than a
statement matching no rows; for the GROUP-BY-free types the appended
predicate is well-placed. -/
theorem C4_empty_id_set_render :
    (oo_type_names.all (fun nm =>
      decide (oo_query_render_empty_ids (oo_statement_v40 nm) =
        (oo_statement_v40 nm ++ " WHERE 0", [])))) = true
    ∧ whereAfterGroupBy
        (oo_query_render_empty_ids revision_statement).1 = true
    ∧ whereAfterGroupBy
        (oo_query_render_empty_ids (oo_statement_v41 "revision")).1 = true
    ∧ whereAfterGroupBy
        (oo_query_render_empty_ids (oo_statement_v41 "issue")).1 = true
    ∧ whereAfterGroupBy
        (oo_query_render_empty_ids checkout_statement).1 = false
    ∧ whereAfterGroupBy
        (oo_query_render_empty_ids build_statement).1 = false
    ∧ whereAfterGroupBy
        (oo_query_render_empty_ids test_statement).1 = false
    ∧ whereAfterGroupBy revision_statement = false := by
  refine ⟨by decide, by decide, by decide, by decide, by decide,
    by decide, by decide, by decide⟩

end KCIDB
